/-
Verification of the PandoraPFA geometry-helper component
(src/include/Helpers/GeometryHelper.h) against its specification.

Shallow embedding conventions:
- C++ `float` values are embedded as `ℚ` (exact rationals standing for the
  numeric field of the source; floating-point rounding is outside the scope of
  the verified claims, which are structural / control-flow properties).
- Trigonometric primitives (`std::sin`, `std::cos`, `std::atan2`) and the
  constant pi are abstracted into a `TrigOracle` record of functions on `ℚ`,
  since the claims never depend on analytic identities of the trig functions.
- A C++ method that can throw `StatusCodeException` is embedded as a function
  into `Except StatusCode _`; a method that cannot throw is a total function.
- Mutation is embedded as explicit state passing: a mutating member function
  becomes a function returning the updated object.
- Method bodies that are only declared in the given header (their .cc
  translation unit is not part of the excerpt) are modelled from the
  specification; each such definition carries a doc comment starting
  `Modelled from the spec:`.
-/
import Mathlib

set_option autoImplicit false

namespace PandoraPFA

/-- Embedding of the pandora `StatusCode` enumeration values used by the
geometry helper. -/
inductive StatusCode where
  | SUCCESS
  | NOT_INITIALIZED
  | ALREADY_INITIALIZED
  | NOT_FOUND
  | INVALID_PARAMETER
  deriving DecidableEq, Repr

/-- Embedding of `pandora::CartesianVector`: a 3D point/vector with rational
coordinates. -/
structure CartesianVector where
  x : ℚ
  y : ℚ
  z : ℚ
  deriving DecidableEq, Repr

namespace CartesianVector

/-- Componentwise subtraction of position vectors. -/
def sub (a b : CartesianVector) : CartesianVector :=
  ⟨a.x - b.x, a.y - b.y, a.z - b.z⟩

/-- Componentwise addition of position vectors. -/
def add (a b : CartesianVector) : CartesianVector :=
  ⟨a.x + b.x, a.y + b.y, a.z + b.z⟩

/-- Scalar multiple of a vector. -/
def scale (k : ℚ) (a : CartesianVector) : CartesianVector :=
  ⟨k * a.x, k * a.y, k * a.z⟩

/-- Euclidean dot product. -/
def dot (a b : CartesianVector) : ℚ :=
  a.x * b.x + a.y * b.y + a.z * b.z

/-- Cross product. -/
def cross (a b : CartesianVector) : CartesianVector :=
  ⟨a.y * b.z - a.z * b.y, a.z * b.x - a.x * b.z, a.x * b.y - a.y * b.x⟩

end CartesianVector

/-- Abstraction of the floating-point trigonometric primitives used by the
geometry code.  The claims under verification are independent of any analytic
property of `sin`/`cos`/`atan2`, so they are carried as opaque-to-the-proofs
(but fully computable once instantiated) rational-valued functions. -/
structure TrigOracle where
  sin : ℚ → ℚ
  cos : ℚ → ℚ
  atan2 : ℚ → ℚ → ℚ
  pi : ℚ

/-- `GeometryHelper::AngleVector`: cached (sine, cosine) pairs. -/
abbrev AngleVector : Type := List (ℚ × ℚ)

/-- Modelled from the spec: `GeometryHelper::FillAngleVector` (declared at
GeometryHelper.h:349, body not in the excerpt).  Populates an angle cache with
`symmetryOrder` entries, entry `i` being
`(sin (phi0 + 2*pi*i/symmetryOrder), cos (phi0 + 2*pi*i/symmetryOrder))`. -/
def FillAngleVector (T : TrigOracle) (symmetryOrder : ℕ) (phi0 : ℚ) : AngleVector :=
  (List.range symmetryOrder).map (fun (i : ℕ) =>
    let phi : ℚ := phi0 + (2 * T.pi * (i : ℚ)) / (symmetryOrder : ℚ)
    (T.sin phi, T.cos phi))

/-- Modelled from the spec: the cached overload
`GeometryHelper::GetMaximumRadius(angleVector, x, y)` (declared at
GeometryHelper.h:340, body not in the excerpt).  For each cached
(sine, cosine) pair it projects `(x, y)` onto the corresponding edge normal
and retains the maximum signed projection across all pairs (the radial
envelope value, starting from 0). -/
def GetMaximumRadiusCached (angleVector : AngleVector) (x y : ℚ) : ℚ :=
  angleVector.foldl (fun m sc => max m (x * sc.2 + y * sc.1)) 0

/-- Modelled from the spec: the uncached overload
`GeometryHelper::GetMaximumRadius(symmetryOrder, phi0, x, y)` (declared at
GeometryHelper.h:327, body not in the excerpt).  Convenience overload that
internally builds the angle table and delegates to the cached form. -/
def GetMaximumRadius (T : TrigOracle) (symmetryOrder : ℕ) (phi0 x y : ℚ) : ℚ :=
  GetMaximumRadiusCached (FillAngleVector T symmetryOrder phi0) x y

/-- Embedding of `GeometryHelper::LayerParameters` (GeometryHelper.h:33). -/
structure LayerParameters where
  m_closestDistanceToIp : ℚ
  m_nRadiationLengths : ℚ
  m_nInteractionLengths : ℚ
  deriving DecidableEq, Repr

/-- `GeometryHelper::LayerParametersList`. -/
abbrev LayerParametersList : Type := List LayerParameters

/-- Embedding of `PandoraApi::GeometryParameters::SubDetectorParameters`, the
input description for one sub-detector.  A "valid description" has every
required field present, which the record type enforces. -/
structure SubDetectorInputParameters where
  innerRCoordinate : ℚ
  innerZCoordinate : ℚ
  innerPhiCoordinate : ℚ
  innerSymmetryOrder : ℕ
  outerRCoordinate : ℚ
  outerZCoordinate : ℚ
  outerPhiCoordinate : ℚ
  outerSymmetryOrder : ℕ
  nLayers : ℕ
  layerParametersList : List LayerParameters
  deriving DecidableEq, Repr

/-- Embedding of `GeometryHelper::SubDetectorParameters`
(GeometryHelper.h:46-151): the stored descriptor with its initialization
flag. -/
structure SubDetectorParameters where
  m_isInitialized : Bool
  m_innerRCoordinate : ℚ
  m_innerZCoordinate : ℚ
  m_innerPhiCoordinate : ℚ
  m_innerSymmetryOrder : ℕ
  m_outerRCoordinate : ℚ
  m_outerZCoordinate : ℚ
  m_outerPhiCoordinate : ℚ
  m_outerSymmetryOrder : ℕ
  m_nLayers : ℕ
  m_layerParametersList : List LayerParameters
  deriving DecidableEq, Repr

namespace SubDetectorParameters

/-- Modelled from the spec: the `SubDetectorParameters` default constructor
(declared at GeometryHelper.h:52, body not in the excerpt).  Construction
alone does not initialize: the flag starts false. -/
def construct : SubDetectorParameters :=
  { m_isInitialized := false
    m_innerRCoordinate := 0
    m_innerZCoordinate := 0
    m_innerPhiCoordinate := 0
    m_innerSymmetryOrder := 0
    m_outerRCoordinate := 0
    m_outerZCoordinate := 0
    m_outerPhiCoordinate := 0
    m_outerSymmetryOrder := 0
    m_nLayers := 0
    m_layerParametersList := [] }

/-- Modelled from the spec: `SubDetectorParameters::Initialize` (declared at
GeometryHelper.h:60, body not in the excerpt).  Populates every stored field
from the input description and sets the initialization flag.  The
sub-detector name is used by the source only for diagnostics. -/
def Initialize (_subDetectorName : String) (inputParameters : SubDetectorInputParameters) :
    SubDetectorParameters :=
  { m_isInitialized := true
    m_innerRCoordinate := inputParameters.innerRCoordinate
    m_innerZCoordinate := inputParameters.innerZCoordinate
    m_innerPhiCoordinate := inputParameters.innerPhiCoordinate
    m_innerSymmetryOrder := inputParameters.innerSymmetryOrder
    m_outerRCoordinate := inputParameters.outerRCoordinate
    m_outerZCoordinate := inputParameters.outerZCoordinate
    m_outerPhiCoordinate := inputParameters.outerPhiCoordinate
    m_outerSymmetryOrder := inputParameters.outerSymmetryOrder
    m_nLayers := inputParameters.nLayers
    m_layerParametersList := inputParameters.layerParametersList }

/-- Embedding of `SubDetectorParameters::IsInitialized`
(GeometryHelper.h:598-601): returns the flag, never throws. -/
def IsInitialized (s : SubDetectorParameters) : Bool :=
  s.m_isInitialized

/-- Embedding of `SubDetectorParameters::GetInnerRCoordinate`
(GeometryHelper.h:605-611). -/
def GetInnerRCoordinate (s : SubDetectorParameters) : Except StatusCode ℚ :=
  if !s.m_isInitialized then .error .NOT_INITIALIZED else .ok s.m_innerRCoordinate

/-- Embedding of `SubDetectorParameters::GetInnerZCoordinate`
(GeometryHelper.h:615-621). -/
def GetInnerZCoordinate (s : SubDetectorParameters) : Except StatusCode ℚ :=
  if !s.m_isInitialized then .error .NOT_INITIALIZED else .ok s.m_innerZCoordinate

/-- Embedding of `SubDetectorParameters::GetInnerPhiCoordinate`
(GeometryHelper.h:625-631). -/
def GetInnerPhiCoordinate (s : SubDetectorParameters) : Except StatusCode ℚ :=
  if !s.m_isInitialized then .error .NOT_INITIALIZED else .ok s.m_innerPhiCoordinate

/-- Embedding of `SubDetectorParameters::GetInnerSymmetryOrder`
(GeometryHelper.h:635-641). -/
def GetInnerSymmetryOrder (s : SubDetectorParameters) : Except StatusCode ℕ :=
  if !s.m_isInitialized then .error .NOT_INITIALIZED else .ok s.m_innerSymmetryOrder

/-- Embedding of `SubDetectorParameters::GetOuterRCoordinate`
(GeometryHelper.h:645-651). -/
def GetOuterRCoordinate (s : SubDetectorParameters) : Except StatusCode ℚ :=
  if !s.m_isInitialized then .error .NOT_INITIALIZED else .ok s.m_outerRCoordinate

/-- Embedding of `SubDetectorParameters::GetOuterZCoordinate`
(GeometryHelper.h:655-661). -/
def GetOuterZCoordinate (s : SubDetectorParameters) : Except StatusCode ℚ :=
  if !s.m_isInitialized then .error .NOT_INITIALIZED else .ok s.m_outerZCoordinate

/-- Embedding of `SubDetectorParameters::GetOuterPhiCoordinate`
(GeometryHelper.h:665-671). -/
def GetOuterPhiCoordinate (s : SubDetectorParameters) : Except StatusCode ℚ :=
  if !s.m_isInitialized then .error .NOT_INITIALIZED else .ok s.m_outerPhiCoordinate

/-- Embedding of `SubDetectorParameters::GetOuterSymmetryOrder`
(GeometryHelper.h:675-681). -/
def GetOuterSymmetryOrder (s : SubDetectorParameters) : Except StatusCode ℕ :=
  if !s.m_isInitialized then .error .NOT_INITIALIZED else .ok s.m_outerSymmetryOrder

/-- Embedding of `SubDetectorParameters::GetNLayers`
(GeometryHelper.h:685-691). -/
def GetNLayers (s : SubDetectorParameters) : Except StatusCode ℕ :=
  if !s.m_isInitialized then .error .NOT_INITIALIZED else .ok s.m_nLayers

/-- Embedding of `SubDetectorParameters::GetLayerParametersList`
(GeometryHelper.h:695-701). -/
def GetLayerParametersList (s : SubDetectorParameters) : Except StatusCode (List LayerParameters) :=
  if !s.m_isInitialized then .error .NOT_INITIALIZED else .ok s.m_layerParametersList

end SubDetectorParameters

/-- Modelled from the spec: the polymorphic `pandora::DetectorGap` hierarchy
(forward-declared at GeometryHelper.h:18; the class itself is not in the
excerpt).  `box` is a BoxGap: a vertex plus two or three edge vectors
spanning a rectangle / parallelepiped dead region.  `concentric` is a
ConcentricGap: an angular sector of a cylindrical shell. -/
inductive DetectorGap where
  | box (vertex side1 side2 : CartesianVector) (side3 : Option CartesianVector)
  | concentric (minZ maxZ phiMin phiMax : ℚ) (symmetrySector : ℕ)
      (innerR innerPhi0 : ℚ) (innerSymmetryOrder : ℕ)
      (outerR outerPhi0 : ℚ) (outerSymmetryOrder : ℕ)

namespace DetectorGap

/-- Modelled from the spec: one polygon-envelope bound check of the
ConcentricGap containment test.  Symmetry order 0 means a plain circular
bound (compared via squared radii, which is exact); a positive order compares
the radial envelope value from `GetMaximumRadius` against the nominal
radius `r`. -/
def envelopeValueLE (T : TrigOracle) (symmetryOrder : ℕ) (phi0 r x y : ℚ) : Bool :=
  if symmetryOrder = 0 then
    decide (x * x + y * y ≤ r * r)
  else
    decide (GetMaximumRadius T symmetryOrder phi0 x y ≤ r)

/-- Modelled from the spec: `DetectorGap::IsInGap`, the pure containment test
of a gap volume (class not in the excerpt).
BoxGap: the point is inside iff it decomposes as
vertex + a·side1 + b·side2 (+ c·side3) with the coefficients in [0,1]; the
coefficients are obtained by inverting the edge-vector basis (Cramer's rule),
and the decomposition is re-checked exactly.
ConcentricGap: convert to cylindrical polar; require z within the z extent,
the phi coordinate reduced modulo 2*pi/symmetrySector within
[phiMin, phiMax], and the radial position within the inner and outer polygon
envelopes (each with its own symmetry order). -/
def IsInGap (T : TrigOracle) (position : CartesianVector) : DetectorGap → Bool
  | box vertex side1 side2 none =>
    let w := position.sub vertex
    let n := side1.cross side2
    let nn := n.dot n
    let a := ((w.cross side2).dot n) / nn
    let b := ((side1.cross w).dot n) / nn
    decide (w = (CartesianVector.scale a side1).add (CartesianVector.scale b side2))
      && decide (0 ≤ a ∧ a ≤ 1 ∧ 0 ≤ b ∧ b ≤ 1)
  | box vertex side1 side2 (some side3) =>
    let w := position.sub vertex
    let D := side1.dot (side2.cross side3)
    let a := (w.dot (side2.cross side3)) / D
    let b := (side1.dot (w.cross side3)) / D
    let c := (side1.dot (side2.cross w)) / D
    decide (w = ((CartesianVector.scale a side1).add (CartesianVector.scale b side2)).add
        (CartesianVector.scale c side3))
      && decide (0 ≤ a ∧ a ≤ 1 ∧ 0 ≤ b ∧ b ≤ 1 ∧ 0 ≤ c ∧ c ≤ 1)
  | concentric minZ maxZ phiMin phiMax symmetrySector innerR innerPhi0 innerSym
      outerR outerPhi0 outerSym =>
    let phi := T.atan2 position.y position.x
    let sectorWidth := (2 * T.pi) / (symmetrySector : ℚ)
    let reducedPhi := phi - (Int.floor (phi / sectorWidth) : ℚ) * sectorWidth
    decide (minZ ≤ position.z ∧ position.z ≤ maxZ)
      && decide (phiMin ≤ reducedPhi ∧ reducedPhi ≤ phiMax)
      && !(envelopeValueLE T innerSym innerPhi0 innerR position.x position.y)
      && envelopeValueLE T outerSym outerPhi0 outerR position.x position.y

end DetectorGap

/-- `GeometryHelper::DetectorGapList` (GeometryHelper.h:154). -/
abbrev DetectorGapList : Type := List DetectorGap

/-- Modelled from the spec: `pandora::BFieldCalculator` (forward-declared at
GeometryHelper.h:19), an injected strategy exposing one capability: compute
the field value for a 3D position. -/
structure BFieldCalculator where
  GetBField : CartesianVector → ℚ

/-- `pandora::PseudoLayer`: the unified depth index. -/
abbrev PseudoLayer : Type := ℕ

/-- Modelled from the spec: `pandora::PseudoLayerCalculator` (forward-declared
at GeometryHelper.h:20), an injected strategy computing the pseudolayer for a
3D position, plus the pseudolayer assigned to a point at the interaction
point. -/
structure PseudoLayerCalculator where
  GetPseudoLayer : CartesianVector → PseudoLayer
  GetPseudoLayerAtIp : PseudoLayer

/-- Embedding of `PandoraApi::GeometryParameters`: the structured description
consumed once by `GeometryHelper::Initialize`: the eight fixed sub-detector
slots, the optional global tracker/coil extents and the open list of named
additional sub-detectors. -/
structure GeometryParameters where
  inDetBarrelParameters : SubDetectorInputParameters
  inDetEndCapParameters : SubDetectorInputParameters
  eCalBarrelParameters : SubDetectorInputParameters
  eCalEndCapParameters : SubDetectorInputParameters
  hCalBarrelParameters : SubDetectorInputParameters
  hCalEndCapParameters : SubDetectorInputParameters
  muonBarrelParameters : SubDetectorInputParameters
  muonEndCapParameters : SubDetectorInputParameters
  mainTrackerInnerRadius : Option ℚ
  mainTrackerOuterRadius : Option ℚ
  mainTrackerZExtent : Option ℚ
  coilInnerRadius : Option ℚ
  coilOuterRadius : Option ℚ
  coilZExtent : Option ℚ
  additionalSubDetectors : List (String × SubDetectorInputParameters)

/-- Embedding of `pandora::InputFloat::Get`: an optional input value whose
read fails with NOT_INITIALIZED when the value was never set. -/
def inputGet (v : Option ℚ) : Except StatusCode ℚ :=
  match v with
  | some value => .ok value
  | none => .error .NOT_INITIALIZED

/-- Embedding of the `pandora::GeometryHelper` instance state
(GeometryHelper.h:428-449): the initialization flag, the two strategy
pointers (None embeds NULL), the eight fixed sub-detector descriptor slots,
the optional global extents, the additional-sub-detector map and the gap
list. -/
structure GeometryHelper where
  m_isInitialized : Bool
  m_pBFieldCalculator : Option BFieldCalculator
  m_pPseudoLayerCalculator : Option PseudoLayerCalculator
  m_inDetBarrelParameters : SubDetectorParameters
  m_inDetEndCapParameters : SubDetectorParameters
  m_eCalBarrelParameters : SubDetectorParameters
  m_eCalEndCapParameters : SubDetectorParameters
  m_hCalBarrelParameters : SubDetectorParameters
  m_hCalEndCapParameters : SubDetectorParameters
  m_muonBarrelParameters : SubDetectorParameters
  m_muonEndCapParameters : SubDetectorParameters
  m_mainTrackerInnerRadius : Option ℚ
  m_mainTrackerOuterRadius : Option ℚ
  m_mainTrackerZExtent : Option ℚ
  m_coilInnerRadius : Option ℚ
  m_coilOuterRadius : Option ℚ
  m_coilZExtent : Option ℚ
  m_additionalSubDetectors : List (String × SubDetectorParameters)
  m_detectorGapList : List DetectorGap

namespace GeometryHelper

/-- Modelled from the spec: the private `GeometryHelper` constructor
(declared at GeometryHelper.h:362, body not in the excerpt).  Construction
alone does not initialize: the flag starts false, no strategy is registered,
every descriptor slot is default-constructed, and the registries are
empty. -/
def construct : GeometryHelper :=
  { m_isInitialized := false
    m_pBFieldCalculator := none
    m_pPseudoLayerCalculator := none
    m_inDetBarrelParameters := SubDetectorParameters.construct
    m_inDetEndCapParameters := SubDetectorParameters.construct
    m_eCalBarrelParameters := SubDetectorParameters.construct
    m_eCalEndCapParameters := SubDetectorParameters.construct
    m_hCalBarrelParameters := SubDetectorParameters.construct
    m_hCalEndCapParameters := SubDetectorParameters.construct
    m_muonBarrelParameters := SubDetectorParameters.construct
    m_muonEndCapParameters := SubDetectorParameters.construct
    m_mainTrackerInnerRadius := none
    m_mainTrackerOuterRadius := none
    m_mainTrackerZExtent := none
    m_coilInnerRadius := none
    m_coilOuterRadius := none
    m_coilZExtent := none
    m_additionalSubDetectors := []
    m_detectorGapList := [] }

/-- Modelled from the spec: `GeometryHelper::GetInstance`
(GeometryHelper.h:159, body not in the excerpt).  The singleton state
(`m_instanceFlag` / `m_pGeometryHelper`) is embedded as an
`Option GeometryHelper`; the first call lazily constructs the instance and
every call returns the stored instance together with the updated singleton
state. -/
def GetInstance : Option GeometryHelper → GeometryHelper × Option GeometryHelper
  | none => (construct, some construct)
  | some g => (g, some g)

/-- Modelled from the spec: `GeometryHelper::Initialize`
(GeometryHelper.h:374, body not in the excerpt).  A repeat call fails with
ALREADY_INITIALIZED; the first call populates every sub-detector descriptor
slot, the global extents and the additional-sub-detector registry from the
description, and marks the helper initialized. -/
def Initialize (geometryParameters : GeometryParameters) (g : GeometryHelper) :
    Except StatusCode GeometryHelper :=
  if g.m_isInitialized then .error .ALREADY_INITIALIZED
  else .ok
    { m_isInitialized := true
      m_pBFieldCalculator := g.m_pBFieldCalculator
      m_pPseudoLayerCalculator := g.m_pPseudoLayerCalculator
      m_inDetBarrelParameters :=
        SubDetectorParameters.Initialize "InDetBarrel" geometryParameters.inDetBarrelParameters
      m_inDetEndCapParameters :=
        SubDetectorParameters.Initialize "InDetEndCap" geometryParameters.inDetEndCapParameters
      m_eCalBarrelParameters :=
        SubDetectorParameters.Initialize "ECalBarrel" geometryParameters.eCalBarrelParameters
      m_eCalEndCapParameters :=
        SubDetectorParameters.Initialize "ECalEndCap" geometryParameters.eCalEndCapParameters
      m_hCalBarrelParameters :=
        SubDetectorParameters.Initialize "HCalBarrel" geometryParameters.hCalBarrelParameters
      m_hCalEndCapParameters :=
        SubDetectorParameters.Initialize "HCalEndCap" geometryParameters.hCalEndCapParameters
      m_muonBarrelParameters :=
        SubDetectorParameters.Initialize "MuonBarrel" geometryParameters.muonBarrelParameters
      m_muonEndCapParameters :=
        SubDetectorParameters.Initialize "MuonEndCap" geometryParameters.muonEndCapParameters
      m_mainTrackerInnerRadius := geometryParameters.mainTrackerInnerRadius
      m_mainTrackerOuterRadius := geometryParameters.mainTrackerOuterRadius
      m_mainTrackerZExtent := geometryParameters.mainTrackerZExtent
      m_coilInnerRadius := geometryParameters.coilInnerRadius
      m_coilOuterRadius := geometryParameters.coilOuterRadius
      m_coilZExtent := geometryParameters.coilZExtent
      m_additionalSubDetectors := geometryParameters.additionalSubDetectors.map
        (fun nv => (nv.1, SubDetectorParameters.Initialize nv.1 nv.2))
      m_detectorGapList := g.m_detectorGapList }

/-- Runs a sequence of `Initialize` calls against the helper, recording each
call's outcome; a failing call leaves the helper state unchanged (in the
source the exception propagates before any member is written). -/
def InitializeSeq (g : GeometryHelper) :
    List GeometryParameters → List (Except StatusCode Unit) × GeometryHelper
  | [] => ([], g)
  | p :: ps =>
    match Initialize p g with
    | .ok gNext =>
      let rest := InitializeSeq gNext ps
      (.ok () :: rest.1, rest.2)
    | .error e =>
      let rest := InitializeSeq g ps
      (.error e :: rest.1, rest.2)

/-- Modelled from the spec: `GeometryHelper::GetBField`
(GeometryHelper.h:168, body not in the excerpt).  Delegates to the injected
BField strategy; fails with NOT_INITIALIZED when no strategy has been
registered. -/
def GetBField (g : GeometryHelper) (positionVector : CartesianVector) : Except StatusCode ℚ :=
  match g.m_pBFieldCalculator with
  | none => .error .NOT_INITIALIZED
  | some strat => .ok (strat.GetBField positionVector)

/-- Modelled from the spec: `GeometryHelper::GetPseudoLayer`
(GeometryHelper.h:177, body not in the excerpt).  Delegates to the injected
pseudolayer strategy; fails with NOT_INITIALIZED when no strategy has been
registered. -/
def GetPseudoLayer (g : GeometryHelper) (positionVector : CartesianVector) :
    Except StatusCode PseudoLayer :=
  match g.m_pPseudoLayerCalculator with
  | none => .error .NOT_INITIALIZED
  | some strat => .ok (strat.GetPseudoLayer positionVector)

/-- Modelled from the spec: `GeometryHelper::GetPseudoLayerAtIp`
(GeometryHelper.h:185, body not in the excerpt).  Delegates to the injected
pseudolayer strategy; fails with NOT_INITIALIZED when no strategy has been
registered. -/
def GetPseudoLayerAtIp (g : GeometryHelper) : Except StatusCode PseudoLayer :=
  match g.m_pPseudoLayerCalculator with
  | none => .error .NOT_INITIALIZED
  | some strat => .ok strat.GetPseudoLayerAtIp

/-- Embedding of `GeometryHelper::GetInDetBarrelParameters`
(GeometryHelper.h:463-466): returns the member reference with no
initialization check, so it never fails. -/
def GetInDetBarrelParameters (g : GeometryHelper) : Except StatusCode SubDetectorParameters :=
  .ok g.m_inDetBarrelParameters

/-- Embedding of `GeometryHelper::GetInDetEndCapParameters`
(GeometryHelper.h:470-473). -/
def GetInDetEndCapParameters (g : GeometryHelper) : Except StatusCode SubDetectorParameters :=
  .ok g.m_inDetEndCapParameters

/-- Embedding of `GeometryHelper::GetECalBarrelParameters`
(GeometryHelper.h:477-480). -/
def GetECalBarrelParameters (g : GeometryHelper) : Except StatusCode SubDetectorParameters :=
  .ok g.m_eCalBarrelParameters

/-- Embedding of `GeometryHelper::GetECalEndCapParameters`
(GeometryHelper.h:484-487). -/
def GetECalEndCapParameters (g : GeometryHelper) : Except StatusCode SubDetectorParameters :=
  .ok g.m_eCalEndCapParameters

/-- Embedding of `GeometryHelper::GetHCalBarrelParameters`
(GeometryHelper.h:491-494). -/
def GetHCalBarrelParameters (g : GeometryHelper) : Except StatusCode SubDetectorParameters :=
  .ok g.m_hCalBarrelParameters

/-- Embedding of `GeometryHelper::GetHCalEndCapParameters`
(GeometryHelper.h:498-501). -/
def GetHCalEndCapParameters (g : GeometryHelper) : Except StatusCode SubDetectorParameters :=
  .ok g.m_hCalEndCapParameters

/-- Embedding of `GeometryHelper::GetMuonBarrelParameters`
(GeometryHelper.h:505-508). -/
def GetMuonBarrelParameters (g : GeometryHelper) : Except StatusCode SubDetectorParameters :=
  .ok g.m_muonBarrelParameters

/-- Embedding of `GeometryHelper::GetMuonEndCapParameters`
(GeometryHelper.h:512-515). -/
def GetMuonEndCapParameters (g : GeometryHelper) : Except StatusCode SubDetectorParameters :=
  .ok g.m_muonEndCapParameters

/-- Embedding of `GeometryHelper::GetMainTrackerInnerRadius`
(GeometryHelper.h:519-522): reads the optional input value. -/
def GetMainTrackerInnerRadius (g : GeometryHelper) : Except StatusCode ℚ :=
  inputGet g.m_mainTrackerInnerRadius

/-- Embedding of `GeometryHelper::GetMainTrackerOuterRadius`
(GeometryHelper.h:526-529). -/
def GetMainTrackerOuterRadius (g : GeometryHelper) : Except StatusCode ℚ :=
  inputGet g.m_mainTrackerOuterRadius

/-- Embedding of `GeometryHelper::GetMainTrackerZExtent`
(GeometryHelper.h:533-536). -/
def GetMainTrackerZExtent (g : GeometryHelper) : Except StatusCode ℚ :=
  inputGet g.m_mainTrackerZExtent

/-- Embedding of `GeometryHelper::GetCoilInnerRadius`
(GeometryHelper.h:540-543). -/
def GetCoilInnerRadius (g : GeometryHelper) : Except StatusCode ℚ :=
  inputGet g.m_coilInnerRadius

/-- Embedding of `GeometryHelper::GetCoilOuterRadius`
(GeometryHelper.h:547-550). -/
def GetCoilOuterRadius (g : GeometryHelper) : Except StatusCode ℚ :=
  inputGet g.m_coilOuterRadius

/-- Embedding of `GeometryHelper::GetCoilZExtent`
(GeometryHelper.h:554-557). -/
def GetCoilZExtent (g : GeometryHelper) : Except StatusCode ℚ :=
  inputGet g.m_coilZExtent

/-- Embedding of `GeometryHelper::GetAdditionalSubDetectors`
(GeometryHelper.h:561-567): checks the helper initialization flag and throws
NOT_INITIALIZED before returning the map. -/
def GetAdditionalSubDetectors (g : GeometryHelper) :
    Except StatusCode (List (String × SubDetectorParameters)) :=
  if !g.m_isInitialized then .error .NOT_INITIALIZED
  else .ok g.m_additionalSubDetectors

/-- Embedding of `GeometryHelper::GetDetectorGapList`
(GeometryHelper.h:571-574): returns the member reference with no
initialization check, so it never fails. -/
def GetDetectorGapList (g : GeometryHelper) : Except StatusCode (List DetectorGap) :=
  .ok g.m_detectorGapList

/-- Modelled from the spec: `GeometryHelper::IsInDetectorGapRegion`
(GeometryHelper.h:306, body not in the excerpt).  True iff any registered
gap volume's containment test returns true for the position (logical OR over
the registered gap list, first match short-circuits). -/
def IsInDetectorGapRegion (T : TrigOracle) (g : GeometryHelper) (position : CartesianVector) :
    Bool :=
  g.m_detectorGapList.any (fun gap => gap.IsInGap T position)

/-- Embedding of the static `GeometryHelper::GetGapTolerance`
(GeometryHelper.h:590-593): returns the static member `m_gapTolerance`,
embedded as an explicit argument. -/
def GetGapTolerance (m_gapTolerance : ℚ) : ℚ :=
  m_gapTolerance

/-- Embedding of `PandoraApi::BoxGap::Parameters`: vertex plus two or three
edge vectors. -/
structure BoxGapParameters where
  vertex : CartesianVector
  side1 : CartesianVector
  side2 : CartesianVector
  side3 : Option CartesianVector

/-- Whether the edge-vector basis of a box-gap description is singular
(degenerate / zero volume): for two edges, a vanishing cross product; for
three edges, a vanishing determinant. -/
def boxBasisDegenerate (gapParameters : BoxGapParameters) : Bool :=
  match gapParameters.side3 with
  | none =>
    decide (gapParameters.side1.cross gapParameters.side2 = CartesianVector.mk 0 0 0)
  | some side3 =>
    decide (gapParameters.side1.dot (gapParameters.side2.cross side3) = 0)

/-- Modelled from the spec: `GeometryHelper::CreateBoxGap`
(GeometryHelper.h:381, body not in the excerpt).  A singular
(degenerate/zero-volume) edge basis is an INVALID_PARAMETER error; otherwise
the new gap volume is appended to the registered gap list (no overlap
validation). -/
def CreateBoxGap (gapParameters : BoxGapParameters) (g : GeometryHelper) :
    Except StatusCode GeometryHelper :=
  if boxBasisDegenerate gapParameters then .error .INVALID_PARAMETER
  else .ok { g with m_detectorGapList := g.m_detectorGapList ++
    [DetectorGap.box gapParameters.vertex gapParameters.side1 gapParameters.side2
      gapParameters.side3] }

end GeometryHelper

/-- Modelled from the spec: the `pandora::HitType` enumeration (defined in a
translation unit not in the excerpt): the known calorimeter hit types plus a
non-calorimeter type with no granularity default. -/
inductive HitType where
  | ECAL
  | HCAL
  | MUON
  | TRACK
  deriving DecidableEq, BEq, Repr

/-- Modelled from the spec: the `pandora::Granularity` enumeration (defined in
a translation unit not in the excerpt): finer granularity for more finely
segmented calorimeter sections, coarser for others. -/
inductive Granularity where
  | FINE
  | COARSE
  deriving DecidableEq, Repr

/-- `GeometryHelper::HitTypeToGranularityMap` (GeometryHelper.h:404), embedded
as an association list; `List.lookup` embeds `std::map::find`. -/
abbrev HitTypeToGranularityMap : Type := List (HitType × Granularity)

/-- Embedding of the static `GeometryHelper::GetHitTypeGranularity`
(GeometryHelper.h:578-586): looks the hit type up in the static map (embedded
as an explicit argument) and fails with NOT_FOUND when no entry exists. -/
def GetHitTypeGranularity (m_hitTypeToGranularityMap : HitTypeToGranularityMap)
    (hitType : HitType) : Except StatusCode Granularity :=
  match m_hitTypeToGranularityMap.lookup hitType with
  | some granularity => .ok granularity
  | none => .error .NOT_FOUND

/-- Modelled from the spec: `GeometryHelper::GetDefaultHitTypeToGranularityMap`
(declared at GeometryHelper.h:411, body not in the excerpt).  Seeds one
default entry per known calorimeter hit type: fine granularity for the finely
segmented ECAL, coarse for the HCAL and muon system.  The non-calorimeter
TRACK type gets no entry. -/
def GetDefaultHitTypeToGranularityMap : HitTypeToGranularityMap :=
  [(HitType.ECAL, Granularity.FINE),
   (HitType.HCAL, Granularity.COARSE),
   (HitType.MUON, Granularity.COARSE)]

/-- Modelled from the spec: the static `GeometryHelper::SetHitTypeGranularity`
(declared at GeometryHelper.h:419, body not in the excerpt).  Overrides the
single entry for the given hit type. -/
def SetHitTypeGranularity (m : HitTypeToGranularityMap) (hitType : HitType)
    (granularity : Granularity) : HitTypeToGranularityMap :=
  (hitType, granularity) :: m.filter (fun entry => entry.1 != hitType)

/-
Concrete sample values used by the witness theorems.
-/

/-- A concrete trig oracle used to instantiate witnesses (its values are
irrelevant to the properties exercised). -/
def sampleTrig : TrigOracle :=
  { sin := fun q => q
    cos := fun q => 1 - q
    atan2 := fun _ _ => 0
    pi := 3 }

/-- A concrete sub-detector description with distinct field values. -/
def sampleSubDetectorInput : SubDetectorInputParameters :=
  { innerRCoordinate := 1
    innerZCoordinate := 2
    innerPhiCoordinate := 3
    innerSymmetryOrder := 8
    outerRCoordinate := 4
    outerZCoordinate := 5
    outerPhiCoordinate := 6
    outerSymmetryOrder := 12
    nLayers := 2
    layerParametersList := [⟨10, 1/2, 1/4⟩, ⟨20, 1, 1/2⟩] }

/-- A concrete full geometry description. -/
def sampleGeometryParameters : GeometryParameters :=
  { inDetBarrelParameters := sampleSubDetectorInput
    inDetEndCapParameters := sampleSubDetectorInput
    eCalBarrelParameters := sampleSubDetectorInput
    eCalEndCapParameters := sampleSubDetectorInput
    hCalBarrelParameters := sampleSubDetectorInput
    hCalEndCapParameters := sampleSubDetectorInput
    muonBarrelParameters := sampleSubDetectorInput
    muonEndCapParameters := sampleSubDetectorInput
    mainTrackerInnerRadius := some 100
    mainTrackerOuterRadius := some 200
    mainTrackerZExtent := some 300
    coilInnerRadius := some 400
    coilOuterRadius := some 500
    coilZExtent := some 600
    additionalSubDetectors := [("Coil", sampleSubDetectorInput)] }

/-- The helper after a successful `Initialize` (strategies still
unregistered). -/
def sampleInitializedHelper : GeometryHelper :=
  match GeometryHelper.Initialize sampleGeometryParameters GeometryHelper.construct with
  | .ok g => g
  | .error _ => GeometryHelper.construct

/-- A helper whose gap registry holds exactly the box gap of the spec's test
property. -/
def sampleGapHelper : GeometryHelper :=
  { GeometryHelper.construct with m_detectorGapList :=
    [DetectorGap.box ⟨0, 0, 0⟩ ⟨10, 0, 0⟩ ⟨0, 10, 0⟩ none] }

/-- A box-gap description with a degenerate (zero-area) edge basis. -/
def sampleDegenerateBoxParameters : GeometryHelper.BoxGapParameters :=
  { vertex := ⟨0, 0, 0⟩
    side1 := ⟨1, 0, 0⟩
    side2 := ⟨2, 0, 0⟩
    side3 := none }

/-
Theorems settling the claims.
-/

/-- Helper: once the helper is initialized, every further `Initialize` of a
sequence fails with ALREADY_INITIALIZED. -/
theorem initializeSeq_of_initialized (g : GeometryHelper) (hg : g.m_isInitialized = true)
    (ps : List GeometryParameters) :
    (GeometryHelper.InitializeSeq g ps).1 =
      ps.map (fun _ => Except.error StatusCode.ALREADY_INITIALIZED) := by
  induction ps with
  | nil => rfl
  | cons q qs ih =>
    simp only [GeometryHelper.InitializeSeq, GeometryHelper.Initialize, hg, if_true,
      List.map_cons]
    exact congrArg _ ih

/-- C1: `GetInstance` is a stable singleton: a second call on the state left
by any call returns the same instance and the same state; and from the fresh
lazily-constructed instance, the first `Initialize` of every call sequence
succeeds while every later `Initialize` call fails with ALREADY_INITIALIZED. -/
theorem geometryHelper_singleton_initialize_once :
    (∀ s : Option GeometryHelper,
      GeometryHelper.GetInstance ((GeometryHelper.GetInstance s).2) =
        GeometryHelper.GetInstance s) ∧
    (∀ (p : GeometryParameters) (ps : List GeometryParameters),
      (GeometryHelper.InitializeSeq (GeometryHelper.GetInstance none).1 (p :: ps)).1 =
        Except.ok () :: ps.map (fun _ => Except.error StatusCode.ALREADY_INITIALIZED)) := by
  constructor
  · intro s
    cases s <;> rfl
  · intro p ps
    have hstep : GeometryHelper.Initialize p (GeometryHelper.GetInstance none).1 =
        Except.ok ((GeometryHelper.Initialize p GeometryHelper.construct).toOption.getD
          GeometryHelper.construct) := rfl
    simp only [GeometryHelper.InitializeSeq, hstep]
    refine congrArg _ (initializeSeq_of_initialized _ rfl ps)

/-- C10: `SubDetectorParameters::IsInitialized` is total (it simply returns
the stored flag, never failing); the flag is false for a freshly constructed
descriptor and true after `Initialize`, for every input. -/
theorem subDetectorParameters_isInitialized_total :
    (∀ s : SubDetectorParameters, s.IsInitialized = s.m_isInitialized) ∧
    SubDetectorParameters.construct.IsInitialized = false ∧
    (∀ (name : String) (input : SubDetectorInputParameters),
      (SubDetectorParameters.Initialize name input).IsInitialized = true) :=
  ⟨fun _ => rfl, rfl, fun _ _ => rfl⟩

/-- C3: for every symmetry order at least 3 and phi0 in [0, 2*pi), the cached
`GetMaximumRadius` computed with the angle vector produced by
`FillAngleVector` equals the uncached overload at every (x, y). -/
theorem getMaximumRadius_cached_eq_uncached (T : TrigOracle) (symmetryOrder : ℕ)
    (phi0 x y : ℚ) (hsym : 3 ≤ symmetryOrder) (hlo : 0 ≤ phi0) (hhi : phi0 < 2 * T.pi) :
    GetMaximumRadiusCached (FillAngleVector T symmetryOrder phi0) x y =
      GetMaximumRadius T symmetryOrder phi0 x y :=
  rfl

/-- Witness for C3 at symmetry order 3, phi0 = 0, (x, y) = (1, 2). -/
theorem getMaximumRadius_cached_eq_uncached_witness :
    3 ≤ 3 ∧ (0 : ℚ) ≤ 0 ∧ (0 : ℚ) < 2 * sampleTrig.pi ∧
    GetMaximumRadiusCached (FillAngleVector sampleTrig 3 0) 1 2 =
      GetMaximumRadius sampleTrig 3 0 1 2 :=
  ⟨le_refl 3, le_refl 0, by norm_num [sampleTrig],
    getMaximumRadius_cached_eq_uncached sampleTrig 3 0 1 2 (le_refl 3) (le_refl 0)
      (by norm_num [sampleTrig])⟩

/-- C6: `GetBField` fails with NOT_INITIALIZED whenever no bfield strategy is
registered, and `GetPseudoLayer` / `GetPseudoLayerAtIp` fail with
NOT_INITIALIZED whenever no pseudolayer strategy is registered, regardless of
whether `Initialize` has already run. -/
theorem strategy_queries_require_registration (g : GeometryHelper)
    (position : CartesianVector) :
    (g.m_pBFieldCalculator = none →
      g.GetBField position = .error .NOT_INITIALIZED) ∧
    (g.m_pPseudoLayerCalculator = none →
      g.GetPseudoLayer position = .error .NOT_INITIALIZED ∧
      g.GetPseudoLayerAtIp = .error .NOT_INITIALIZED) := by
  constructor
  · intro h
    simp [GeometryHelper.GetBField, h]
  · intro h
    constructor <;>
      simp [GeometryHelper.GetPseudoLayer, GeometryHelper.GetPseudoLayerAtIp, h]

/-- Witness for C6 on the helper left by a successful `Initialize`, which is
initialized but has no registered strategies. -/
theorem strategy_queries_require_registration_witness :
    sampleInitializedHelper.m_isInitialized = true ∧
    sampleInitializedHelper.m_pBFieldCalculator = none ∧
    sampleInitializedHelper.m_pPseudoLayerCalculator = none ∧
    sampleInitializedHelper.GetBField ⟨1, 2, 3⟩ = .error .NOT_INITIALIZED ∧
    sampleInitializedHelper.GetPseudoLayer ⟨1, 2, 3⟩ = .error .NOT_INITIALIZED ∧
    sampleInitializedHelper.GetPseudoLayerAtIp = .error .NOT_INITIALIZED :=
  ⟨rfl, rfl, rfl,
    (strategy_queries_require_registration sampleInitializedHelper ⟨1, 2, 3⟩).1 rfl,
    ((strategy_queries_require_registration sampleInitializedHelper ⟨1, 2, 3⟩).2 rfl).1,
    ((strategy_queries_require_registration sampleInitializedHelper ⟨1, 2, 3⟩).2 rfl).2⟩

/-- C7: `GetHitTypeGranularity` fails with NOT_FOUND exactly when the hit type
has no entry in the hit-type-to-granularity map; on the default map a seeded
calorimeter hit type yields its documented default granularity and the
unseeded TRACK type yields NOT_FOUND. -/
theorem getHitTypeGranularity_lookup (m : HitTypeToGranularityMap) (hitType : HitType) :
    (GetHitTypeGranularity m hitType = .error .NOT_FOUND ↔ m.lookup hitType = none) ∧
    (GetHitTypeGranularity GetDefaultHitTypeToGranularityMap .ECAL = .ok .FINE ∧
     GetHitTypeGranularity GetDefaultHitTypeToGranularityMap .HCAL = .ok .COARSE ∧
     GetHitTypeGranularity GetDefaultHitTypeToGranularityMap .MUON = .ok .COARSE ∧
     GetHitTypeGranularity GetDefaultHitTypeToGranularityMap .TRACK = .error .NOT_FOUND) := by
  constructor
  · cases h : m.lookup hitType <;> simp [GetHitTypeGranularity, h]
  · exact ⟨rfl, rfl, rfl, rfl⟩

/-- C9: before `Initialize`, `GetAdditionalSubDetectors` fails with
NOT_INITIALIZED, while `GetDetectorGapList` and every fixed-slot
`Get<Section>Parameters` accessor return the stored member unconditionally
and never fail. -/
theorem fixed_slot_accessors_unchecked (g : GeometryHelper) :
    (g.m_isInitialized = false →
      g.GetAdditionalSubDetectors = .error .NOT_INITIALIZED) ∧
    g.GetDetectorGapList = .ok g.m_detectorGapList ∧
    g.GetInDetBarrelParameters = .ok g.m_inDetBarrelParameters ∧
    g.GetInDetEndCapParameters = .ok g.m_inDetEndCapParameters ∧
    g.GetECalBarrelParameters = .ok g.m_eCalBarrelParameters ∧
    g.GetECalEndCapParameters = .ok g.m_eCalEndCapParameters ∧
    g.GetHCalBarrelParameters = .ok g.m_hCalBarrelParameters ∧
    g.GetHCalEndCapParameters = .ok g.m_hCalEndCapParameters ∧
    g.GetMuonBarrelParameters = .ok g.m_muonBarrelParameters ∧
    g.GetMuonEndCapParameters = .ok g.m_muonEndCapParameters := by
  refine ⟨fun h => ?_, rfl, rfl, rfl, rfl, rfl, rfl, rfl, rfl, rfl⟩
  simp [GeometryHelper.GetAdditionalSubDetectors, h]

/-- Witness for C9 on the freshly constructed (uninitialized) helper. -/
theorem fixed_slot_accessors_unchecked_witness :
    GeometryHelper.construct.m_isInitialized = false ∧
    GeometryHelper.construct.GetAdditionalSubDetectors = .error .NOT_INITIALIZED ∧
    GeometryHelper.construct.GetDetectorGapList =
      .ok GeometryHelper.construct.m_detectorGapList ∧
    GeometryHelper.construct.GetInDetBarrelParameters =
      .ok GeometryHelper.construct.m_inDetBarrelParameters :=
  ⟨rfl, (fixed_slot_accessors_unchecked GeometryHelper.construct).1 rfl,
    (fixed_slot_accessors_unchecked GeometryHelper.construct).2.1,
    (fixed_slot_accessors_unchecked GeometryHelper.construct).2.2.1⟩

/-- C2: on an uninitialized descriptor every accessor fails with
NOT_INITIALIZED, and after `Initialize` each accessor returns exactly the
value supplied at initialization (round-trip). -/
theorem subDetectorParameters_accessor_lifecycle (s : SubDetectorParameters)
    (h : s.m_isInitialized = false) (name : String)
    (input : SubDetectorInputParameters) :
    (s.GetInnerRCoordinate = .error .NOT_INITIALIZED ∧
     s.GetInnerZCoordinate = .error .NOT_INITIALIZED ∧
     s.GetInnerPhiCoordinate = .error .NOT_INITIALIZED ∧
     s.GetInnerSymmetryOrder = .error .NOT_INITIALIZED ∧
     s.GetOuterRCoordinate = .error .NOT_INITIALIZED ∧
     s.GetOuterZCoordinate = .error .NOT_INITIALIZED ∧
     s.GetOuterPhiCoordinate = .error .NOT_INITIALIZED ∧
     s.GetOuterSymmetryOrder = .error .NOT_INITIALIZED ∧
     s.GetNLayers = .error .NOT_INITIALIZED ∧
     s.GetLayerParametersList = .error .NOT_INITIALIZED) ∧
    ((SubDetectorParameters.Initialize name input).GetInnerRCoordinate =
        .ok input.innerRCoordinate ∧
     (SubDetectorParameters.Initialize name input).GetInnerZCoordinate =
        .ok input.innerZCoordinate ∧
     (SubDetectorParameters.Initialize name input).GetInnerPhiCoordinate =
        .ok input.innerPhiCoordinate ∧
     (SubDetectorParameters.Initialize name input).GetInnerSymmetryOrder =
        .ok input.innerSymmetryOrder ∧
     (SubDetectorParameters.Initialize name input).GetOuterRCoordinate =
        .ok input.outerRCoordinate ∧
     (SubDetectorParameters.Initialize name input).GetOuterZCoordinate =
        .ok input.outerZCoordinate ∧
     (SubDetectorParameters.Initialize name input).GetOuterPhiCoordinate =
        .ok input.outerPhiCoordinate ∧
     (SubDetectorParameters.Initialize name input).GetOuterSymmetryOrder =
        .ok input.outerSymmetryOrder ∧
     (SubDetectorParameters.Initialize name input).GetNLayers = .ok input.nLayers ∧
     (SubDetectorParameters.Initialize name input).GetLayerParametersList =
        .ok input.layerParametersList) := by
  constructor
  · simp [SubDetectorParameters.GetInnerRCoordinate, SubDetectorParameters.GetInnerZCoordinate,
      SubDetectorParameters.GetInnerPhiCoordinate, SubDetectorParameters.GetInnerSymmetryOrder,
      SubDetectorParameters.GetOuterRCoordinate, SubDetectorParameters.GetOuterZCoordinate,
      SubDetectorParameters.GetOuterPhiCoordinate, SubDetectorParameters.GetOuterSymmetryOrder,
      SubDetectorParameters.GetNLayers, SubDetectorParameters.GetLayerParametersList, h]
  · simp [SubDetectorParameters.GetInnerRCoordinate, SubDetectorParameters.GetInnerZCoordinate,
      SubDetectorParameters.GetInnerPhiCoordinate, SubDetectorParameters.GetInnerSymmetryOrder,
      SubDetectorParameters.GetOuterRCoordinate, SubDetectorParameters.GetOuterZCoordinate,
      SubDetectorParameters.GetOuterPhiCoordinate, SubDetectorParameters.GetOuterSymmetryOrder,
      SubDetectorParameters.GetNLayers, SubDetectorParameters.GetLayerParametersList,
      SubDetectorParameters.Initialize]

/-- Witness for C2 on a freshly constructed descriptor and the sample
description. -/
theorem subDetectorParameters_accessor_lifecycle_witness :
    SubDetectorParameters.construct.m_isInitialized = false ∧
    ((SubDetectorParameters.construct.GetInnerRCoordinate = .error .NOT_INITIALIZED ∧
      SubDetectorParameters.construct.GetInnerZCoordinate = .error .NOT_INITIALIZED ∧
      SubDetectorParameters.construct.GetInnerPhiCoordinate = .error .NOT_INITIALIZED ∧
      SubDetectorParameters.construct.GetInnerSymmetryOrder = .error .NOT_INITIALIZED ∧
      SubDetectorParameters.construct.GetOuterRCoordinate = .error .NOT_INITIALIZED ∧
      SubDetectorParameters.construct.GetOuterZCoordinate = .error .NOT_INITIALIZED ∧
      SubDetectorParameters.construct.GetOuterPhiCoordinate = .error .NOT_INITIALIZED ∧
      SubDetectorParameters.construct.GetOuterSymmetryOrder = .error .NOT_INITIALIZED ∧
      SubDetectorParameters.construct.GetNLayers = .error .NOT_INITIALIZED ∧
      SubDetectorParameters.construct.GetLayerParametersList = .error .NOT_INITIALIZED) ∧
     ((SubDetectorParameters.Initialize "ECalBarrel" sampleSubDetectorInput).GetInnerRCoordinate =
        .ok sampleSubDetectorInput.innerRCoordinate ∧
      (SubDetectorParameters.Initialize "ECalBarrel" sampleSubDetectorInput).GetInnerZCoordinate =
        .ok sampleSubDetectorInput.innerZCoordinate ∧
      (SubDetectorParameters.Initialize "ECalBarrel" sampleSubDetectorInput).GetInnerPhiCoordinate =
        .ok sampleSubDetectorInput.innerPhiCoordinate ∧
      (SubDetectorParameters.Initialize "ECalBarrel" sampleSubDetectorInput).GetInnerSymmetryOrder =
        .ok sampleSubDetectorInput.innerSymmetryOrder ∧
      (SubDetectorParameters.Initialize "ECalBarrel" sampleSubDetectorInput).GetOuterRCoordinate =
        .ok sampleSubDetectorInput.outerRCoordinate ∧
      (SubDetectorParameters.Initialize "ECalBarrel" sampleSubDetectorInput).GetOuterZCoordinate =
        .ok sampleSubDetectorInput.outerZCoordinate ∧
      (SubDetectorParameters.Initialize "ECalBarrel" sampleSubDetectorInput).GetOuterPhiCoordinate =
        .ok sampleSubDetectorInput.outerPhiCoordinate ∧
      (SubDetectorParameters.Initialize "ECalBarrel" sampleSubDetectorInput).GetOuterSymmetryOrder =
        .ok sampleSubDetectorInput.outerSymmetryOrder ∧
      (SubDetectorParameters.Initialize "ECalBarrel" sampleSubDetectorInput).GetNLayers =
        .ok sampleSubDetectorInput.nLayers ∧
      (SubDetectorParameters.Initialize "ECalBarrel" sampleSubDetectorInput).GetLayerParametersList =
        .ok sampleSubDetectorInput.layerParametersList)) :=
  ⟨rfl, subDetectorParameters_accessor_lifecycle SubDetectorParameters.construct rfl
    "ECalBarrel" sampleSubDetectorInput⟩

/-- C8: for every symmetry order at least 3 and every phi0, `FillAngleVector`
produces exactly `symmetryOrder` entries, entry `i` being
`(sin (phi0 + 2*pi*i/symmetryOrder), cos (phi0 + 2*pi*i/symmetryOrder))`. -/
theorem fillAngleVector_entries (T : TrigOracle) (symmetryOrder : ℕ) (phi0 : ℚ)
    (hsym : 3 ≤ symmetryOrder) :
    (FillAngleVector T symmetryOrder phi0).length = symmetryOrder ∧
    ∀ i : ℕ, i < symmetryOrder →
      (FillAngleVector T symmetryOrder phi0).get? i =
        some (T.sin (phi0 + (2 * T.pi * (i : ℚ)) / (symmetryOrder : ℚ)),
              T.cos (phi0 + (2 * T.pi * (i : ℚ)) / (symmetryOrder : ℚ))) := by
  constructor
  · rw [FillAngleVector, List.length_map, List.length_range]
  · intro i hi
    rw [FillAngleVector, List.get?_eq_getElem?, List.getElem?_map, List.getElem?_range hi]
    rfl

/-- Witness for C8 at symmetry order 3, phi0 = 0, inspecting entry 1. -/
theorem fillAngleVector_entries_witness :
    3 ≤ 3 ∧
    (FillAngleVector sampleTrig 3 0).length = 3 ∧
    (FillAngleVector sampleTrig 3 0).get? 1 =
      some (sampleTrig.sin (0 + (2 * sampleTrig.pi * ((1 : ℕ) : ℚ)) / ((3 : ℕ) : ℚ)),
            sampleTrig.cos (0 + (2 * sampleTrig.pi * ((1 : ℕ) : ℚ)) / ((3 : ℕ) : ℚ))) :=
  ⟨le_refl 3, (fillAngleVector_entries sampleTrig 3 0 (le_refl 3)).1,
    (fillAngleVector_entries sampleTrig 3 0 (le_refl 3)).2 1 (by decide)⟩

/-- C4: `IsInDetectorGapRegion` is the logical OR of the registered gap
volumes' containment tests; in particular with exactly the box gap of the
spec's test property registered, (5, 5, 0) is in a gap region and (15, 5, 0)
is not. -/
theorem isInDetectorGapRegion_or_of_gaps (T : TrigOracle) (g : GeometryHelper)
    (position : CartesianVector) :
    (GeometryHelper.IsInDetectorGapRegion T g position = true ↔
      ∃ gap ∈ g.m_detectorGapList, gap.IsInGap T position = true) ∧
    (∀ g2 : GeometryHelper,
      g2.m_detectorGapList = [DetectorGap.box ⟨0, 0, 0⟩ ⟨10, 0, 0⟩ ⟨0, 10, 0⟩ none] →
      GeometryHelper.IsInDetectorGapRegion T g2 ⟨5, 5, 0⟩ = true ∧
      GeometryHelper.IsInDetectorGapRegion T g2 ⟨15, 5, 0⟩ = false) := by
  constructor
  · simp [GeometryHelper.IsInDetectorGapRegion, List.any_eq_true]
  · intro g2 hg2
    constructor <;>
      simp only [GeometryHelper.IsInDetectorGapRegion, hg2, List.any_cons, List.any_nil,
        DetectorGap.IsInGap, Bool.or_false] <;>
      norm_num [CartesianVector.sub, CartesianVector.cross, CartesianVector.dot,
        CartesianVector.add, CartesianVector.scale, CartesianVector.mk.injEq]

/-- Witness for C4 on a helper holding exactly the test box gap. -/
theorem isInDetectorGapRegion_or_of_gaps_witness :
    sampleGapHelper.m_detectorGapList =
      [DetectorGap.box ⟨0, 0, 0⟩ ⟨10, 0, 0⟩ ⟨0, 10, 0⟩ none] ∧
    GeometryHelper.IsInDetectorGapRegion sampleTrig sampleGapHelper ⟨5, 5, 0⟩ = true ∧
    GeometryHelper.IsInDetectorGapRegion sampleTrig sampleGapHelper ⟨15, 5, 0⟩ = false :=
  ⟨rfl,
    ((isInDetectorGapRegion_or_of_gaps sampleTrig sampleGapHelper ⟨5, 5, 0⟩).2
      sampleGapHelper rfl).1,
    ((isInDetectorGapRegion_or_of_gaps sampleTrig sampleGapHelper ⟨5, 5, 0⟩).2
      sampleGapHelper rfl).2⟩

/-- C5: `CreateBoxGap` with a singular (degenerate, zero-volume) edge basis
fails with INVALID_PARAMETER, and every successfully created box gap has a
non-degenerate basis (so no degenerate box gap is ever registered to answer
containment queries). -/
theorem createBoxGap_degenerate_rejected (gapParameters : GeometryHelper.BoxGapParameters)
    (g : GeometryHelper) :
    (GeometryHelper.boxBasisDegenerate gapParameters = true →
      GeometryHelper.CreateBoxGap gapParameters g = .error .INVALID_PARAMETER) ∧
    (∀ g2 : GeometryHelper, GeometryHelper.CreateBoxGap gapParameters g = .ok g2 →
      GeometryHelper.boxBasisDegenerate gapParameters = false ∧
      g2.m_detectorGapList = g.m_detectorGapList ++
        [DetectorGap.box gapParameters.vertex gapParameters.side1 gapParameters.side2
          gapParameters.side3]) := by
  constructor
  · intro h
    simp [GeometryHelper.CreateBoxGap, h]
  · intro g2 h
    by_cases hd : GeometryHelper.boxBasisDegenerate gapParameters = true
    · simp [GeometryHelper.CreateBoxGap, hd] at h
    · rw [Bool.not_eq_true] at hd
      refine ⟨hd, ?_⟩
      simp only [GeometryHelper.CreateBoxGap, hd, Bool.false_eq_true, if_false] at h
      cases h
      rfl

/-- Witness for C5 on a zero-area basis (parallel edge vectors). -/
theorem createBoxGap_degenerate_rejected_witness :
    GeometryHelper.boxBasisDegenerate sampleDegenerateBoxParameters = true ∧
    GeometryHelper.CreateBoxGap sampleDegenerateBoxParameters GeometryHelper.construct =
      .error .INVALID_PARAMETER :=
  ⟨by norm_num [GeometryHelper.boxBasisDegenerate, sampleDegenerateBoxParameters,
      CartesianVector.cross, CartesianVector.mk.injEq],
    (createBoxGap_degenerate_rejected sampleDegenerateBoxParameters GeometryHelper.construct).1
      (by norm_num [GeometryHelper.boxBasisDegenerate, sampleDegenerateBoxParameters,
        CartesianVector.cross, CartesianVector.mk.injEq])⟩

